import Mathlib

/-!
Verification of the SSD IMS polling client (`custom_components/ssd_ims`).

This file shallowly embeds the parts of the Python source that the
specification's claims are about:

* `api_client.py` — the session client (`authenticate`,
  `_extract_session_token`, `_is_session_expired`, `_reauthenticate`,
  `_make_authenticated_request`, the chart-data response processing of
  `get_chart_data`);
* `models.py` — `PointOfDelivery.id` stable-identifier extraction and the
  `ChartData` pydantic model with its validators;
* `coordinator.py` — `_aggregate_data` and the per-POD / per-period fetch
  loop of `_async_update_data` with its error classification;
* `__init__.py` — `async_migrate_entry`.

Network effects are made explicit: each HTTP interaction is an input value
(`AuthOutcome`, `HttpResult`) or an environment function indexed by a
request counter, and Python exceptions become `Except` results.  Python
floats are modelled as `Rat`: every numeric operation the claims touch is
exact (defaulting to `0.0`, `x or 0.0`), so no rounding behaviour is lost.
-/

/-- Outcome of one POST to the login endpoint, as seen by `authenticate`:
either a transport-level failure (`aiohttp.ClientError` or any other
exception raised while performing the request), or a response with an HTTP
status, a flag telling whether the 200 body validates against the
`AuthResponse` schema (`AuthResponse(**data)`), and the value of the
`SsdAccessToken` cookie if the response carries one. -/
inductive AuthOutcome where
  | transportError : AuthOutcome
  | response (status : Nat) (schemaValid : Bool) (ssdAccessToken : Option String) :
      AuthOutcome
deriving DecidableEq

/-- The mutable fields of `SsdImsApiClient` (api_client.py, `__init__`):
`_authenticated`, `_session_token`, `_username`, `_password`.  The aiohttp
session and timeout carry no claim-relevant state. -/
structure ClientState where
  authenticated : Bool := false
  session_token : Option String := none
  username : Option String := none
  password : Option String := none
deriving DecidableEq

/-- The state of a freshly constructed client. -/
def ClientState.initial : ClientState := {}

/-- `SsdImsApiClient._extract_session_token` (api_client.py lines 113-126):
returns the value of the `SsdAccessToken` cookie when the response carries
one, `None` otherwise.  The cookie jar is modelled as the optional cookie
value; the truthiness test on the cookie object reflects its presence. -/
def extractSessionToken (ssdAccessToken : Option String) : Option String :=
  match ssdAccessToken with
  | some v => some v
  | none => none

/-- `SsdImsApiClient.authenticate` (api_client.py lines 73-111).  The
credentials are stored first (lines 77-78), before the POST is issued, so
they are overwritten on every call, including all failing ones.  On a 200
response the body is validated (`AuthResponse(**data)`); a validation
failure is caught by the blanket `except Exception` and yields `False`
without touching `_authenticated`.  On validation success the client is
marked authenticated and the session token is taken from the cookies.
Non-200 responses and transport errors yield `False`. -/
def authenticate (st : ClientState) (username password : String)
    (out : AuthOutcome) : Bool × ClientState :=
  let st1 := { st with username := some username, password := some password }
  match out with
  | .transportError => (false, st1)
  | .response status schemaValid ssdAccessToken =>
      if status = 200 then
        if schemaValid then
          (true, { st1 with authenticated := true,
                            session_token := extractSessionToken ssdAccessToken })
        else
          (false, st1)
      else
        (false, st1)

/-- Python truthiness of an optional string: `None` and `""` are falsy.
Used for the `if not self._username or not self._password` guard. -/
def optStrFalsy (s : Option String) : Bool :=
  match s with
  | none => true
  | some v => v = ""

/-- `SsdImsApiClient._reauthenticate` (api_client.py lines 143-153).  With
no stored credentials (missing or empty) it returns `False` immediately,
leaving the state untouched.  Otherwise it clears `_authenticated` and
`_session_token` and calls `authenticate` with the stored credentials. -/
def reauthenticate (st : ClientState) (out : AuthOutcome) : Bool × ClientState :=
  if optStrFalsy st.username || optStrFalsy st.password then
    (false, st)
  else
    match st.username, st.password with
    | some u, some p =>
        authenticate { st with authenticated := false, session_token := none } u p out
    | _, _ => (false, st)

/-- One response to an authenticated data request, as consumed by
`_make_authenticated_request`: the content type (which drives
`_is_session_expired`), the HTTP status, and the JSON body —
`jsonBody = none` models a body on which `response.json()` raises. -/
structure Resp where
  contentTypeHtml : Bool
  status : Nat
  jsonBody : Option String
deriving DecidableEq

/-- Outcome of performing one HTTP data request: a transport failure
(`aiohttp.ClientError`, re-raised by the client) or a response. -/
inductive HttpResult where
  | failure : HttpResult
  | resp (r : Resp) : HttpResult
deriving DecidableEq

/-- `SsdImsApiClient._is_session_expired` (api_client.py lines 128-141):
the session counts as expired when the response content type contains
`text/html` instead of JSON. -/
def isSessionExpired (r : Resp) : Bool :=
  r.contentTypeHtml

/-- The network environment of one `_make_authenticated_request` call:
`http i` is the outcome of the i-th data request issued, `login j` the
outcome of the j-th login POST issued. -/
structure Env where
  http : Nat → HttpResult
  login : Nat → AuthOutcome

/-- How many data requests and login POSTs have been issued so far. -/
structure Counters where
  httpCount : Nat := 0
  loginCount : Nat := 0
deriving DecidableEq

/-- `_reauthenticate` reading its login outcome from the environment: the
login POST inside `authenticate` consumes one entry of `env.login`. -/
def reauthenticateEnv (st : ClientState) (env : Env) (k : Counters) :
    Bool × ClientState × Counters :=
  if optStrFalsy st.username || optStrFalsy st.password then
    (false, st, k)
  else
    match st.username, st.password with
    | some u, some p =>
        let r := authenticate { st with authenticated := false, session_token := none }
          u p (env.login k.loginCount)
        (r.1, r.2, { k with loginCount := k.loginCount + 1 })
    | _, _ => (false, st, k)

/-- Result of `_make_authenticated_request`, one constructor per exit path
of the Python function (api_client.py lines 155-197). -/
inductive ReqResult where
  /-- `raise Exception("Not authenticated")` (line 160). -/
  | notAuthenticated : ReqResult
  /-- a re-raised `aiohttp.ClientError` from either request. -/
  | transportError : ReqResult
  /-- `raise Exception("Re-authentication failed")` (line 185). -/
  | reauthFailed : ReqResult
  /-- `raise Exception("API error after re-authentication: ...")` (line 180). -/
  | apiErrorAfterReauth (status : Nat) : ReqResult
  /-- `raise Exception("API error: ...")` (line 190). -/
  | apiError (status : Nat) : ReqResult
  /-- a `response.json()` call raised on a 200 response. -/
  | jsonError : ReqResult
  /-- `return await response.json()` — the decoded body. -/
  | success (body : String) : ReqResult
deriving DecidableEq

/-- `SsdImsApiClient._make_authenticated_request` (api_client.py lines
155-197).  If the client is not authenticated it fails immediately.  It
issues the request; when the response is detected as expired it runs
`_reauthenticate` once and, on success, retries the request exactly once,
returning the retried body on a 200 and an API-status error otherwise —
the retried response's content type is never examined again.  On
re-authentication failure it fails with the re-authentication error.  A
non-expired response yields the body on 200 and an API-status error
otherwise. -/
def makeAuthenticatedRequest (st : ClientState) (env : Env) (k : Counters) :
    ReqResult × ClientState × Counters :=
  if !st.authenticated then
    (.notAuthenticated, st, k)
  else
    match env.http k.httpCount with
    | .failure => (.transportError, st, { k with httpCount := k.httpCount + 1 })
    | .resp r =>
        let k1 : Counters := { k with httpCount := k.httpCount + 1 }
        if isSessionExpired r then
          let (ok, st1, k2) := reauthenticateEnv st env k1
          if ok then
            match env.http k2.httpCount with
            | .failure => (.transportError, st1, { k2 with httpCount := k2.httpCount + 1 })
            | .resp r2 =>
                let k3 : Counters := { k2 with httpCount := k2.httpCount + 1 }
                if r2.status = 200 then
                  match r2.jsonBody with
                  | some b => (.success b, st1, k3)
                  | none => (.jsonError, st1, k3)
                else
                  (.apiErrorAfterReauth r2.status, st1, k3)
          else
            (.reauthFailed, st1, k2)
        else
          if r.status = 200 then
            match r.jsonBody with
            | some b => (.success b, st, k1)
            | none => (.jsonError, st, k1)
          else
            (.apiError r.status, st, k1)

/-- The character class `[A-Z0-9]`. -/
def isUpperDigit (c : Char) : Bool :=
  ('A' ≤ c && c ≤ 'Z') || ('0' ≤ c && c ≤ '9')

/-- Length of the maximal leading run of `[A-Z0-9]` characters. -/
def leadingRun : List Char → Nat
  | [] => 0
  | c :: t => if isUpperDigit c then leadingRun t + 1 else 0

/-- The text matched by Python's `re.search(r"^([A-Z0-9]{16,20})", text)`
(models.py line 48): the pattern is anchored and nothing follows the
greedy counted class, so it matches the maximal leading `[A-Z0-9]` run
capped at 20 characters, and succeeds exactly when that run has at least
16 characters. -/
def anchoredIdMatch (s : List Char) : Option (List Char) :=
  if 16 ≤ leadingRun s then some (s.take (min 20 (leadingRun s))) else none

/-- Python's `re.match(r"^[A-Z0-9]{16,20}$", text)` (models.py line 61)
succeeds exactly when the whole text consists of 16 to 20 `[A-Z0-9]`
characters (the engine backtracks the greedy counter to meet `$`). -/
def fullIdMatch (s : List Char) : Bool :=
  decide (16 ≤ s.length) && decide (s.length ≤ 20) && s.all isUpperDigit

/-- `PointOfDelivery.id` (models.py lines 35-68) on the descriptor text:
first try the anchored search and double-check the extracted length is in
[16, 20]; failing that, accept a text that is entirely a 16-20 character
id; otherwise raise `ValueError` (modelled as `Except.error`). -/
def extractPodId (s : List Char) : Except String (List Char) :=
  match anchoredIdMatch s with
  | some extracted =>
      if 16 ≤ extracted.length ∧ extracted.length ≤ 20 then
        .ok extracted
      else
        .error "Extracted ID length invalid"
  | none =>
      if fullIdMatch s then
        .ok s
      else
        .error "Could not extract valid POD ID from text"

/-- `PointOfDelivery` (models.py lines 29-33): descriptor `text` and
session-scoped `value`. -/
structure PointOfDelivery where
  text : String
  value : String
deriving DecidableEq

/-- The `PointOfDelivery.id` property on the model, as a string. -/
def PointOfDelivery.id (pod : PointOfDelivery) : Except String String :=
  match extractPodId pod.text.toList with
  | .ok m => .ok (String.mk m)
  | .error e => .error e

/-- JSON values, as decoded by `response.json()`.  Numbers are modelled as
rationals; the upstream chart endpoint delivers its numeric fields as JSON
numbers. -/
inductive Json where
  | null : Json
  | bool (b : Bool) : Json
  | num (q : Rat) : Json
  | str (s : String) : Json
  | arr (xs : List Json) : Json
  | obj (fields : List (String × Json)) : Json

/-- Python truthiness of a decoded JSON value: `None`, `False`, `0`, `""`,
`[]` and `{}` are falsy. -/
def Json.truthy : Json → Bool
  | .null => false
  | .bool b => b
  | .num q => decide (q ≠ 0)
  | .str s => decide (s ≠ "")
  | .arr xs => !xs.isEmpty
  | .obj fields => !fields.isEmpty

/-- `dict.get(key)`: `None` when the key is absent. -/
def jsonGet (fields : List (String × Json)) (key : String) : Option Json :=
  fields.lookup key

/-- Truthiness of `data.get(key)`: an absent key gives `None`, falsy. -/
def jsonGetTruthy (fields : List (String × Json)) (key : String) : Bool :=
  match jsonGet fields key with
  | none => false
  | some v => v.truthy

/-- The `ChartData` pydantic model (models.py lines 112-129): four series
lists, a timestamp list, and one running sum per category.  Every field
defaults to empty / `0.0`, so `ChartData()` is the all-empty value.  The
sums are plain rationals: the `validate_sum_fields` validator maps `None`
to `0.0` and the field default is `0.0`, so no `None` survives
construction. -/
structure ChartData where
  metering_datetime : List String := []
  actual_consumption : List Rat := []
  actual_supply : List Rat := []
  idle_consumption : List Rat := []
  idle_supply : List Rat := []
  sum_actual_consumption : Rat := 0
  sum_actual_supply : Rat := 0
  sum_idle_consumption : Rat := 0
  sum_idle_supply : Rat := 0
deriving DecidableEq

/-- `ChartData()` — all series empty, all sums `0.0`. -/
def ChartData.empty : ChartData := {}

/-- Python `float(x)` on a decoded JSON scalar: numbers convert to
themselves and booleans to 0/1; `None`, lists and objects raise
`TypeError`.  (Python would also parse a numeric string; the chart
endpoint delivers numbers, and no claim depends on string coercion.) -/
def pyFloat : Json → Option Rat
  | .num q => some q
  | .bool b => some (if b then 1 else 0)
  | _ => none

/-- `ChartData.validate_float_lists` (models.py lines 131-161): a `None`
value becomes `[]`; a non-list scalar becomes a one-element list if it
converts; inside a list, `None` entries are skipped and every other entry
must convert to float, else validation fails. -/
def validateFloatList (v : Json) : Except String (List Rat) :=
  match v with
  | .arr xs =>
      xs.foldlM (fun acc item =>
        match item with
        | .null => .ok acc
        | other =>
            match pyFloat other with
            | some q => .ok (acc ++ [q])
            | none => .error "Cannot convert item to float") []
  | .null => .ok []
  | other =>
      match pyFloat other with
      | some q => .ok [q]
      | none => .error "Expected list or numeric value"

/-- `ChartData.validate_sum_fields` (models.py lines 163-176): `None`
becomes `0.0`; anything else must convert to float. -/
def validateSumField (v : Json) : Except String Rat :=
  match v with
  | .null => .ok 0
  | other =>
      match pyFloat other with
      | some q => .ok q
      | none => .error "Cannot convert sum to float"

/-- The `metering_datetime: List[str]` field: pydantic accepts a list of
strings and rejects other shapes. -/
def validateStrList (v : Json) : Except String (List String) :=
  match v with
  | .arr xs =>
      xs.foldlM (fun acc item =>
        match item with
        | .str s => .ok (acc ++ [s])
        | _ => .error "Expected string") []
  | _ => .error "Expected list of strings"

/-- Run a field validator on `data.get(alias)`, falling back to the
field's default when the alias is absent. -/
def fieldOrDefault {α : Type} (fields : List (String × Json)) (alias_ : String)
    (dflt : α) (validator : Json → Except String α) : Except String α :=
  match jsonGet fields alias_ with
  | none => .ok dflt
  | some v => validator v

/-- `ChartData(**data)` (models.py): populate every field from its alias,
running the validators; any validator failure is a `ValidationError`. -/
def chartDataOfJson (fields : List (String × Json)) : Except String ChartData := do
  let md ← fieldOrDefault fields "meteringDatetime" [] validateStrList
  let ac ← fieldOrDefault fields "actualConsumption" [] validateFloatList
  let asup ← fieldOrDefault fields "actualSupply" [] validateFloatList
  let ic ← fieldOrDefault fields "idleConsumption" [] validateFloatList
  let isup ← fieldOrDefault fields "idleSupply" [] validateFloatList
  let sac ← fieldOrDefault fields "sumActualConsumption" 0 validateSumField
  let sas ← fieldOrDefault fields "sumActualSupply" 0 validateSumField
  let sic ← fieldOrDefault fields "sumIdleConsumption" 0 validateSumField
  let sis ← fieldOrDefault fields "sumIdleSupply" 0 validateSumField
  .ok { metering_datetime := md, actual_consumption := ac, actual_supply := asup,
        idle_consumption := ic, idle_supply := isup,
        sum_actual_consumption := sac, sum_actual_supply := sas,
        sum_idle_consumption := sic, sum_idle_supply := sis }

/-- The response processing of `SsdImsApiClient.get_chart_data`
(api_client.py lines 334-378), applied to the decoded JSON of a 200
response: a non-dict response is an error; a falsy `meteringDatetime`
entry (absent, `null`, or an empty list) short-circuits to the all-empty
`ChartData()`; otherwise the dict is validated into a `ChartData`, and a
validation failure is re-raised as a chart-data validation error. -/
def processChartResponse (data : Json) : Except String ChartData :=
  match data with
  | .obj fields =>
      if !jsonGetTruthy fields "meteringDatetime" then
        .ok ChartData.empty
      else
        match chartDataOfJson fields with
        | .ok cd => .ok cd
        | .error _ => .error "Chart data validation failed"
  | _ => .error "Invalid chart data response format"

/-- The sensor-category names (const.py `SENSOR_TYPE_*`). -/
def sensorActualConsumption : String := "actual_consumption"

/-- `SENSOR_TYPE_ACTUAL_SUPPLY`. -/
def sensorActualSupply : String := "actual_supply"

/-- `SENSOR_TYPE_IDLE_CONSUMPTION`. -/
def sensorIdleConsumption : String := "idle_consumption"

/-- `SENSOR_TYPE_IDLE_SUPPLY`. -/
def sensorIdleSupply : String := "idle_supply"

/-- The sensor-enablement options read by `_aggregate_data`
(coordinator.py lines 321-327). -/
structure AggConfig where
  enable_supply_sensors : Bool
  enable_idle_sensors : Bool
deriving DecidableEq

/-- The `enabled_sensor_types` list built in `_aggregate_data`
(coordinator.py lines 329-339): active consumption is always enabled,
supply and the two idle categories follow the options. -/
def enabledSensorTypes (cfg : AggConfig) : List String :=
  [sensorActualConsumption]
    ++ (if cfg.enable_supply_sensors then [sensorActualSupply] else [])
    ++ (if cfg.enable_idle_sensors then [sensorIdleConsumption, sensorIdleSupply] else [])

/-- Python `x or 0.0` on a float: keeps `x` unless it is falsy (zero). -/
def orZero (x : Rat) : Rat :=
  if x = 0 then 0 else x

/-- The body of the per-period loop of `_aggregate_data` (coordinator.py
lines 341-379) for one period's entry.  A present `ChartData` is always
truthy and always has the `sum_actual_consumption` attribute, so the
`if chart_data and hasattr(...)` guard takes its then-branch, emitting
`sum or 0.0` for each enabled category in the fixed order of the
membership tests; the else-branch (only reachable for a `None` entry,
modelled as `none`) sets every enabled category to `0.0`. -/
def aggregatePeriod (cfg : AggConfig) (chart : Option ChartData) :
    List (String × Rat) :=
  match chart with
  | some cd =>
      (if (enabledSensorTypes cfg).contains sensorActualConsumption then
        [(sensorActualConsumption, orZero cd.sum_actual_consumption)] else [])
      ++ (if (enabledSensorTypes cfg).contains sensorActualSupply then
        [(sensorActualSupply, orZero cd.sum_actual_supply)] else [])
      ++ (if (enabledSensorTypes cfg).contains sensorIdleConsumption then
        [(sensorIdleConsumption, orZero cd.sum_idle_consumption)] else [])
      ++ (if (enabledSensorTypes cfg).contains sensorIdleSupply then
        [(sensorIdleSupply, orZero cd.sum_idle_supply)] else [])
  | none => (enabledSensorTypes cfg).map (fun s => (s, (0 : Rat)))

/-- `SsdImsDataCoordinator._aggregate_data` (coordinator.py lines
317-381): one aggregated entry per key of `chart_data_by_period`; keys
absent from the input dict produce no entry at all. -/
def aggregateData (cfg : AggConfig) (chartDataByPeriod : List (String × Option ChartData)) :
    List (String × List (String × Rat)) :=
  chartDataByPeriod.map (fun e => (e.1, aggregatePeriod cfg e.2))

/-- The per-period fetch loop of `_async_update_data` (coordinator.py
lines 144-177) for one POD: each period's try-block computes the date
range and fetches the chart data; the `except Exception` at line 172
catches every failure of that block — date-range errors and
`get_chart_data` errors alike — logs it and `continue`s, so a failed
period is simply missing from the resulting `chart_data_by_period`
dict.  `fetch` stands for the whole try-block body producing the
period's chart data. -/
def buildChartByPeriod (periods : List String)
    (fetch : String → Except String ChartData) : List (String × ChartData) :=
  periods.filterMap (fun p =>
    match fetch p with
    | .ok cd => some (p, cd)
    | .error _ => none)

/-- Substring test on character lists (Python's `needle in hay`). -/
def containsSub (needle : List Char) : List Char → Bool
  | [] => List.isPrefixOf needle []
  | c :: t => List.isPrefixOf needle (c :: t) || containsSub needle t

/-- Lowercase a string character-wise (Python `str.lower()` on ASCII). -/
def lowerStr (s : String) : List Char :=
  s.toList.map Char.toLower

/-- The auth-error signature list of `_async_update_data` (coordinator.py
lines 235-241). -/
def authErrorSignatures : List String :=
  ["not authenticated", "authentication failed", "session expired",
   "re-authentication failed", "text/html"]

/-- The auth-error classification of `_async_update_data` (coordinator.py
lines 233-242): does `error_msg.lower()` contain one of the fixed
signature substrings? -/
def isAuthErrorMsg (msg : String) : Bool :=
  authErrorSignatures.any (fun sig => containsSub sig.toList (lowerStr msg))

/-- The per-POD result record stored into `all_pod_data` (coordinator.py
lines 204-215): session id, descriptor text, the aggregated values, and
the list of periods whose chart data was fetched (the keys of the
`chart_data_<period>` entries). -/
structure PodData where
  session_pod_id : String
  pod_text : String
  aggregated : List (String × List (String × Rat))
  chartPeriods : List String
deriving DecidableEq

/-- The body of the per-POD try-block (coordinator.py lines 129-224):
look up the POD, fetch each period (each period catching its own
errors), aggregate, and build the record.  The only fallible step, the
per-period loop, swallows every exception itself, so the body never
raises and is total. -/
def processPod (cfg : AggConfig) (periods : List String)
    (fetch : String → String → Except String ChartData)
    (podId : String) (pod : PointOfDelivery) : PodData :=
  let chartByPeriod := buildChartByPeriod periods (fetch podId)
  { session_pod_id := pod.value
    pod_text := pod.text
    aggregated := aggregateData cfg (chartByPeriod.map (fun e => (e.1, some e.2)))
    chartPeriods := chartByPeriod.map (fun e => e.1) }

/-- Fatal cycle outcomes of `_async_update_data`:
`ConfigEntryAuthFailed` or `UpdateFailed`. -/
inductive CycleError where
  | authFailed : CycleError
  | updateFailed (msg : String) : CycleError
deriving DecidableEq

/-- The per-POD loop of `_async_update_data` (coordinator.py lines
127-249).  A configured POD missing from the registry is skipped.  The
per-POD body is wrapped in the try/except of lines 129-249: if it raised
with an auth-signature message the cycle would abort with
`ConfigEntryAuthFailed`, any other message would skip the POD — but the
body (`processPod`) is total, its per-period loop having already caught
every fetch error, so the handler never runs. -/
def runPodLoop (cfg : AggConfig) (registry : List (String × PointOfDelivery))
    (periods : List String)
    (fetch : String → String → Except String ChartData) :
    List String → Except CycleError (List (String × PodData))
  | [] => .ok []
  | podId :: rest =>
      match registry.lookup podId with
      | none => runPodLoop cfg registry periods fetch rest
      | some pod =>
          let body : Except String PodData :=
            .ok (processPod cfg periods fetch podId pod)
          match body with
          | .ok pd =>
              match runPodLoop cfg registry periods fetch rest with
              | .ok tail => .ok ((podId, pd) :: tail)
              | .error e => .error e
          | .error msg =>
              if isAuthErrorMsg msg then
                .error .authFailed
              else
                runPodLoop cfg registry periods fetch rest

/-- Python dict insertion: overwrite an existing key, else append. -/
def dictInsert (m : List (String × String)) (k v : String) :
    List (String × String) :=
  if (m.lookup k).isSome then
    m.map (fun e => if e.1 = k then (e.1, v) else e)
  else
    m ++ [(k, v)]

/-- The `pod_mapping` dict of `async_migrate_entry` (__init__.py lines
104-116): session value → stable id, skipping PODs whose id extraction
raises `ValueError`. -/
def buildSessionToStable (pods : List PointOfDelivery) : List (String × String) :=
  pods.foldl (fun m pod =>
    match pod.id with
    | .ok stable => dictInsert m pod.value stable
    | .error _ => m) []

/-- The `pod_text_to_id` dict of `async_migrate_entry` (__init__.py lines
172-184): descriptor text → stable id, skipping invalid PODs. -/
def buildTextToStable (pods : List PointOfDelivery) : List (String × String) :=
  pods.foldl (fun m pod =>
    match pod.id with
    | .ok stable => dictInsert m pod.text stable
    | .error _ => m) []

/-- The descriptor-text conversion branch of `async_migrate_entry`
(__init__.py lines 156-270).  Authentication failure and any exception
are logged but never fail this branch.  When some configured text is
missing from the fresh mapping, the `for`/`else` at line 241 — whose
`else` always runs because the outer loop has no `break` — rebinds the
updated list to the plain text→stable conversion, dropping unresolvable
texts; with nothing missing, the configuration is left as it is. -/
def migrateTextConversion (authOk : Bool)
    (podsE : Except String (List PointOfDelivery)) (podList : List String) :
    Bool × List String :=
  match authOk, podsE with
  | true, .ok pods =>
      let textToId := buildTextToStable pods
      let missing := podList.filter (fun t => (textToId.lookup t).isNone)
      if missing.isEmpty then
        (true, podList)
      else
        let updated := podList.filterMap (fun t => textToId.lookup t)
        if updated ≠ podList then (true, updated) else (true, podList)
  | true, .error _ => (true, podList)
  | false, _ => (true, podList)

/-- `async_migrate_entry` (__init__.py lines 78-274) acting on the stored
`point_of_delivery` list.  `authOk` is the result of the `authenticate`
call, `podsE` the outcome of `get_points_of_delivery` (an exception in
the session-token branch is caught at line 150 and fails the migration).
Only entries at version 1 are migrated; the migration returns the Boolean
result together with the (possibly rewritten) stored list. -/
def migrateEntry (version : Nat) (podList : List String) (authOk : Bool)
    (podsE : Except String (List PointOfDelivery)) : Bool × List String :=
  if version = 1 then
    if !podList.isEmpty && podList.any (fun s => decide (50 < s.length)) then
      if authOk then
        match podsE with
        | .ok pods =>
            let podMapping := buildSessionToStable pods
            (true, podList.filterMap (fun s => podMapping.lookup s))
        | .error _ => (false, podList)
      else
        (false, podList)
    else if !podList.isEmpty then
      migrateTextConversion authOk podsE podList
    else
      (true, podList)
  else
    (false, podList)

theorem leadingRun_le_length (s : List Char) : leadingRun s ≤ s.length := by
  induction s with
  | nil => simp [leadingRun]
  | cons c t ih =>
      simp only [leadingRun, List.length_cons]
      split
      · omega
      · omega

theorem leadingRun_of_all (s : List Char) (h : s.all isUpperDigit = true) :
    leadingRun s = s.length := by
  induction s with
  | nil => simp [leadingRun]
  | cons c t ih =>
      simp only [List.all_cons, Bool.and_eq_true] at h
      simp [leadingRun, h.1, ih h.2]

/-- C9: every call to `authenticate` stores the given username and
password as the credentials for future re-authentication before the login
request is issued, so the stored credentials are overwritten with the new
pair even when the call returns false (non-200, schema failure, or
transport failure). -/
theorem C9_authenticate_always_stores_credentials (st : ClientState)
    (u p : String) (out : AuthOutcome) :
    (authenticate st u p out).2.username = some u ∧
    (authenticate st u p out).2.password = some p := by
  cases out with
  | transportError => exact ⟨rfl, rfl⟩
  | response status schemaValid tok =>
      simp only [authenticate]
      split
      · split
        · exact ⟨rfl, rfl⟩
        · exact ⟨rfl, rfl⟩
      · exact ⟨rfl, rfl⟩

/-- C10: when the login endpoint returns HTTP 200 with a schema-valid
profile body but no `SsdAccessToken` cookie, `authenticate` still returns
true and marks the session authenticated, leaving the session token
`None`. -/
theorem C10_auth_succeeds_without_cookie (st : ClientState) (u p : String) :
    (authenticate st u p (.response 200 true none)).1 = true ∧
    (authenticate st u p (.response 200 true none)).2.authenticated = true ∧
    (authenticate st u p (.response 200 true none)).2.session_token = none :=
  ⟨rfl, rfl, rfl⟩

/-- C5: `authenticate` always returns a boolean and never raises (it is a
total function into `Bool × ClientState`); on a non-200 response status,
on a schema-validation failure of the 200 response body, or on a
transport-level failure, it returns false. -/
theorem C5_authenticate_returns_false_on_failures (st : ClientState)
    (u p : String) :
    (authenticate st u p .transportError).1 = false
    ∧ (∀ status schemaValid tok, status ≠ 200 →
        (authenticate st u p (.response status schemaValid tok)).1 = false)
    ∧ (∀ tok, (authenticate st u p (.response 200 false tok)).1 = false) := by
  refine ⟨rfl, ?_, fun tok => rfl⟩
  intro status schemaValid tok hne
  simp [authenticate, hne]

/-- Witness for C5 at a concrete 401 response. -/
theorem C5_witness :
    (authenticate ClientState.initial "user" "pw" (.response 401 true none)).1 = false :=
  (C5_authenticate_returns_false_on_failures ClientState.initial "user" "pw").2.1
    401 true none (by decide)

theorem authenticate_fail_preserves_flags (st : ClientState) (u p : String)
    (out : AuthOutcome) (h : (authenticate st u p out).1 = false) :
    (authenticate st u p out).2.authenticated = st.authenticated ∧
    (authenticate st u p out).2.session_token = st.session_token := by
  cases out with
  | transportError => exact ⟨rfl, rfl⟩
  | response status schemaValid tok =>
      cases schemaValid <;> by_cases h200 : status = 200 <;>
        simp [authenticate, h200] at h ⊢

/-- C7 (amended): when both stored credentials are present and non-empty,
re-authentication clears the authenticated flag and the session token
before attempting login, so every failed re-authentication that attempts
login leaves the client unauthenticated with no session token.  (A
re-authentication that fails because a stored credential is missing or
empty returns false without touching the state — see the
counterexample.) -/
theorem C7_failed_reauth_with_credentials_leaves_unauthenticated
    (st : ClientState) (out : AuthOutcome) (u p : String)
    (hu : st.username = some u) (hune : u ≠ "")
    (hp : st.password = some p) (hpne : p ≠ "")
    (hfail : (reauthenticate st out).1 = false) :
    (reauthenticate st out).2.authenticated = false ∧
    (reauthenticate st out).2.session_token = none := by
  simp only [reauthenticate, hu, hp, optStrFalsy, decide_eq_true_eq] at hfail ⊢
  rw [if_neg (by simp [hune, hpne])] at hfail ⊢
  exact authenticate_fail_preserves_flags _ u p out hfail

/-- Witness for C7 (amended): a client with stored non-empty credentials
whose re-authentication login fails on a transport error ends up
unauthenticated with no token. -/
theorem C7_witness :
    (reauthenticate
        { authenticated := true, session_token := some "t",
          username := some "user", password := some "pw" }
        .transportError).2.authenticated = false ∧
    (reauthenticate
        { authenticated := true, session_token := some "t",
          username := some "user", password := some "pw" }
        .transportError).2.session_token = none :=
  C7_failed_reauth_with_credentials_leaves_unauthenticated
    _ _ "user" "pw" rfl (by decide) rfl (by decide) rfl

/-- Counterexample to C7 as stated: a client authenticated via
`authenticate("", "pw")` (HTTP 200, schema-valid, cookie present) has an
empty stored username, so `_reauthenticate` fails its
`if not self._username or not self._password` guard and returns false
WITHOUT clearing the state: the failed re-authentication leaves the
client with the authenticated flag still true and the stale session
token still set. -/
theorem C7_counterexample :
    (reauthenticate
        ((authenticate ClientState.initial "" "pw" (.response 200 true (some "tok"))).2)
        .transportError).1 = false ∧
    (reauthenticate
        ((authenticate ClientState.initial "" "pw" (.response 200 true (some "tok"))).2)
        .transportError).2.authenticated = true ∧
    (reauthenticate
        ((authenticate ClientState.initial "" "pw" (.response 200 true (some "tok"))).2)
        .transportError).2.session_token = some "tok" :=
  ⟨rfl, rfl, rfl⟩

/-- C2: for every descriptor text whose prefix matches
`^[A-Z0-9]{16,20}` the extraction returns exactly the matched leading
run; for every text that is itself entirely 16-20 uppercase-alphanumeric
characters it returns the text unchanged; for every other text (no
anchored match, hence also no full match) it fails with an invalid-POD-id
error. -/
theorem C2_stable_id_extraction (s : List Char) :
    (∀ m, anchoredIdMatch s = some m → extractPodId s = .ok m)
    ∧ (fullIdMatch s = true → extractPodId s = .ok s)
    ∧ (anchoredIdMatch s = none → ∃ e, extractPodId s = .error e) := by
  refine ⟨?_, ?_, ?_⟩
  · intro m hm
    have hrun : 16 ≤ leadingRun s ∧ m = s.take (min 20 (leadingRun s)) := by
      by_cases h : 16 ≤ leadingRun s
      · refine ⟨h, ?_⟩
        simp [anchoredIdMatch, h] at hm
        exact hm.symm
      · simp [anchoredIdMatch, h] at hm
    have hlen : m.length = min 20 (leadingRun s) := by
      rw [hrun.2, List.length_take]
      have := leadingRun_le_length s
      omega
    have hcond : 16 ≤ m.length ∧ m.length ≤ 20 := by
      constructor <;> omega
    simp [extractPodId, hm, hcond]
  · intro hfull
    have hall : s.all isUpperDigit = true := by
      simp only [fullIdMatch, Bool.and_eq_true, decide_eq_true_eq] at hfull
      exact hfull.2
    have hlen : 16 ≤ s.length ∧ s.length ≤ 20 := by
      simp only [fullIdMatch, Bool.and_eq_true, decide_eq_true_eq] at hfull
      exact ⟨hfull.1.1, hfull.1.2⟩
    have hrun : leadingRun s = s.length := leadingRun_of_all s hall
    have hmatch : anchoredIdMatch s = some s := by
      have h16 : 16 ≤ leadingRun s := by omega
      have : min 20 (leadingRun s) = s.length := by omega
      simp [anchoredIdMatch, h16, this]
    have hcond : 16 ≤ s.length ∧ s.length ≤ 20 := hlen
    simp [extractPodId, hmatch, hcond]
  · intro hnone
    have hrun : leadingRun s < 16 := by
      by_cases h : 16 ≤ leadingRun s
      · simp [anchoredIdMatch, h] at hnone
      · omega
    have hfull : fullIdMatch s = false := by
      by_contra hne
      have hfull' : fullIdMatch s = true := by
        cases h : fullIdMatch s
        · exact absurd h hne
        · rfl
      have hall : s.all isUpperDigit = true := by
        simp only [fullIdMatch, Bool.and_eq_true, decide_eq_true_eq] at hfull'
        exact hfull'.2
      have h16 : 16 ≤ s.length := by
        simp only [fullIdMatch, Bool.and_eq_true, decide_eq_true_eq] at hfull'
        exact hfull'.1.1
      have := leadingRun_of_all s hall
      omega
    exact ⟨"Could not extract valid POD ID from text",
      by simp [extractPodId, hnone, hfull]⟩

/-- Witness for C2: a descriptor that is exactly a 16-character id is
returned unchanged, and one with a trailing label yields the leading
run. -/
theorem C2_witness :
    extractPodId ("ABCD0123WXYZ5678".toList) = .ok ("ABCD0123WXYZ5678".toList) ∧
    16 ≤ leadingRun ("99XXX1234560000G (Home)".toList) :=
  ⟨(C2_stable_id_extraction _).2.1 (by decide), by decide⟩

/-- C6: when the chart response JSON has no timestamp entries — the
`meteringDatetime` field missing, `null`, or an empty list —
`get_chart_data`'s response processing returns the structurally valid
all-empty `ChartData()` rather than erroring: every series list is empty
and every running sum, including `sum_actual_consumption`, is `0.0`. -/
theorem C6_empty_chart_response_yields_empty_chart_data
    (fields : List (String × Json))
    (h : jsonGet fields "meteringDatetime" = none ∨
         jsonGet fields "meteringDatetime" = some Json.null ∨
         jsonGet fields "meteringDatetime" = some (Json.arr [])) :
    processChartResponse (.obj fields) = .ok ChartData.empty
    ∧ ChartData.empty.metering_datetime = []
    ∧ ChartData.empty.actual_consumption = []
    ∧ ChartData.empty.actual_supply = []
    ∧ ChartData.empty.idle_consumption = []
    ∧ ChartData.empty.idle_supply = []
    ∧ ChartData.empty.sum_actual_consumption = 0
    ∧ ChartData.empty.sum_actual_supply = 0
    ∧ ChartData.empty.sum_idle_consumption = 0
    ∧ ChartData.empty.sum_idle_supply = 0 := by
  have hfalsy : jsonGetTruthy fields "meteringDatetime" = false := by
    rcases h with h | h | h <;> simp [jsonGetTruthy, h, Json.truthy]
  refine ⟨?_, rfl, rfl, rfl, rfl, rfl, rfl, rfl, rfl, rfl⟩
  simp [processChartResponse, hfalsy]

/-- Witness for C6: the spec's end-to-end scenario
`{"meteringDatetime": [], "sumActualConsumption": null}`. -/
theorem C6_witness :
    processChartResponse
        (.obj [("meteringDatetime", Json.arr []), ("sumActualConsumption", Json.null)])
      = .ok ChartData.empty ∧
    ChartData.empty.sum_actual_consumption = 0 :=
  ⟨(C6_empty_chart_response_yields_empty_chart_data
      [("meteringDatetime", Json.arr []), ("sumActualConsumption", Json.null)]
      (Or.inr (Or.inr rfl))).1,
   (C6_empty_chart_response_yields_empty_chart_data
      [("meteringDatetime", Json.arr []), ("sumActualConsumption", Json.null)]
      (Or.inr (Or.inr rfl))).2.2.2.2.2.2.1⟩


theorem lookup_map_self (f : String → Rat) (l : List String) (s : String)
    (hs : s ∈ l) :
    (l.map (fun x => (x, f x))).lookup s = some (f s) := by
  induction l with
  | nil => simp at hs
  | cons a t ih =>
      by_cases h : s = a
      · subst h
        simp [List.lookup]
      · have hst : s ∈ t := by
          rcases List.mem_cons.mp hs with h' | h'
          · exact absurd h' h
          · exact h'
        have hbeq : (s == a) = false := by
          simp [h]
        simp [List.lookup, hbeq, ih hst]

theorem aggregatePeriod_eq_map (cfg : AggConfig) (cd : ChartData) :
    aggregatePeriod cfg (some cd) = (enabledSensorTypes cfg).map
      (fun s => (s, orZero (
        if s = sensorActualConsumption then cd.sum_actual_consumption
        else if s = sensorActualSupply then cd.sum_actual_supply
        else if s = sensorIdleConsumption then cd.sum_idle_consumption
        else cd.sum_idle_supply))) := by
  obtain ⟨b1, b2⟩ := cfg
  cases b1 <;> cases b2 <;> rfl

theorem aggregatePeriod_lookup_enabled (cfg : AggConfig) (cd : ChartData)
    (s : String) (hs : s ∈ enabledSensorTypes cfg) :
    ∃ v : Rat, (aggregatePeriod cfg (some cd)).lookup s = some v
      ∧ (cd = ChartData.empty → v = 0) := by
  rw [aggregatePeriod_eq_map]
  refine ⟨_, lookup_map_self _ _ s hs, ?_⟩
  intro hcd
  subst hcd
  simp only [orZero]
  split_ifs <;> rfl

/-- C3 (amended): after a successful poll cycle, for every period whose
fetch succeeded, every enabled sensor category has an explicit numeric
value; a period whose `ChartData` is empty yields `0.0` for each enabled
category.  (A period whose fetch failed is absent from
`chart_data_by_period` and therefore absent from the aggregated result
entirely — see the counterexample.) -/
theorem C3_aggregation_covers_fetched_periods (cfg : AggConfig)
    (periods : List String) (fetch : String → Except String ChartData)
    (p : String) (cd : ChartData) (s : String)
    (hf : fetch p = .ok cd) (hp : p ∈ periods)
    (hs : s ∈ enabledSensorTypes cfg) :
    ∃ vals, (p, vals) ∈ aggregateData cfg
        ((buildChartByPeriod periods fetch).map (fun e => (e.1, some e.2)))
      ∧ ∃ v : Rat, vals.lookup s = some v ∧ (cd = ChartData.empty → v = 0) := by
  have hmem : (p, cd) ∈ buildChartByPeriod periods fetch := by
    simp only [buildChartByPeriod, List.mem_filterMap]
    exact ⟨p, hp, by simp [hf]⟩
  have hmem2 : (p, some cd) ∈
      (buildChartByPeriod periods fetch).map (fun e => (e.1, some e.2)) :=
    List.mem_map.mpr ⟨(p, cd), hmem, rfl⟩
  have hmem3 : (p, aggregatePeriod cfg (some cd)) ∈ aggregateData cfg
      ((buildChartByPeriod periods fetch).map (fun e => (e.1, some e.2))) :=
    List.mem_map.mpr ⟨(p, some cd), hmem2, rfl⟩
  obtain ⟨v, hv, hv0⟩ := aggregatePeriod_lookup_enabled cfg cd s hs
  exact ⟨aggregatePeriod cfg (some cd), hmem3, v, hv, hv0⟩

/-- Witness for C3 (amended): one period fetching the empty chart data
yields an aggregated entry whose `actual_consumption` value is zero. -/
theorem C3_witness :
    ∃ vals, ("yesterday", vals) ∈ aggregateData ⟨false, false⟩
        ((buildChartByPeriod ["yesterday"] (fun _ => .ok ChartData.empty)).map
          (fun e => (e.1, some e.2)))
      ∧ ∃ v : Rat, vals.lookup "actual_consumption" = some v
        ∧ (ChartData.empty = ChartData.empty → v = 0) :=
  C3_aggregation_covers_fetched_periods ⟨false, false⟩ ["yesterday"]
    (fun _ => .ok ChartData.empty) "yesterday" ChartData.empty
    "actual_consumption" rfl (by decide) (by decide)

/-- Counterexample to C3 as stated: with one configured period whose
fetch fails, the period key is missing from `chart_data_by_period`, so
`_aggregate_data` emits no entry for it at all — the enabled category
`actual_consumption` is left missing for that period, not set to zero. -/
theorem C3_counterexample :
    aggregateData ⟨false, false⟩
        ((buildChartByPeriod ["yesterday"] (fun _ => .error "fetch failed")).map
          (fun e => (e.1, some e.2))) = []
    ∧ (aggregateData ⟨false, false⟩
        ((buildChartByPeriod ["yesterday"] (fun _ => .error "fetch failed")).map
          (fun e => (e.1, some e.2)))).lookup "yesterday" = none
    ∧ "actual_consumption" ∈ enabledSensorTypes ⟨false, false⟩ :=
  ⟨rfl, rfl, by decide⟩

theorem migrateTextConversion_fst (authOk : Bool)
    (podsE : Except String (List PointOfDelivery)) (podList : List String) :
    (migrateTextConversion authOk podsE podList).1 = true := by
  cases authOk with
  | false => rfl
  | true =>
      cases podsE with
      | error e => rfl
      | ok pods =>
          simp only [migrateTextConversion]
          split
          · rfl
          · split <;> rfl

theorem any_long_imp_not_isEmpty (l : List String)
    (h : l.any (fun s => decide (50 < s.length)) = true) : l.isEmpty = false := by
  cases l with
  | nil => simp at h
  | cons a t => rfl

/-- C8: configuration migration (at entry version 1) runs the
session-token-to-stable-id conversion exactly when some stored POD
identifier is longer than 50 characters; in that case a failure to
authenticate fails the whole migration step (returns false), while each
stored identifier that cannot be resolved against the fresh discovery
result is dropped from the rewritten configuration without failing the
migration; with no over-50 identifier, authentication failure never
fails the migration. -/
theorem C8_migration_token_conversion (podList : List String) (authOk : Bool)
    (podsE : Except String (List PointOfDelivery)) :
    (podList.any (fun s => decide (50 < s.length)) = true →
      (authOk = false → (migrateEntry 1 podList authOk podsE).1 = false)
      ∧ (authOk = true → ∀ pods, podsE = .ok pods →
          migrateEntry 1 podList authOk podsE =
            (true, podList.filterMap (fun s => (buildSessionToStable pods).lookup s))))
    ∧ (podList.any (fun s => decide (50 < s.length)) = false →
      (migrateEntry 1 podList authOk podsE).1 = true) := by
  constructor
  · intro hlong
    have hne := any_long_imp_not_isEmpty podList hlong
    constructor
    · intro hauth
      subst hauth
      simp [migrateEntry, hne, hlong]
    · intro hauth pods hpods
      subst hauth hpods
      simp [migrateEntry, hne, hlong]
  · intro hshort
    unfold migrateEntry
    rw [if_pos rfl, hshort]
    simp only [Bool.and_false]
    rw [if_neg Bool.false_ne_true]
    split
    · exact migrateTextConversion_fst authOk podsE podList
    · rfl

/-- Witness for C8: a stored 51-character session token with a fresh
discovery containing one resolvable POD; with authentication it is
rewritten to the stable id, without authentication the migration fails. -/
theorem C8_witness :
    migrateEntry 1 [String.mk (List.replicate 51 'A')] true
        (.ok [⟨"99XXX1234560000G (Home)", String.mk (List.replicate 51 'A')⟩])
      = (true, ["99XXX1234560000G"])
    ∧ (migrateEntry 1 [String.mk (List.replicate 51 'A')] false
        (.ok [⟨"99XXX1234560000G (Home)", String.mk (List.replicate 51 'A')⟩])).1
      = false := by
  constructor
  · have h := ((C8_migration_token_conversion
        [String.mk (List.replicate 51 'A')] true
        (.ok [⟨"99XXX1234560000G (Home)", String.mk (List.replicate 51 'A')⟩])).1
        (by decide)).2 rfl
        [⟨"99XXX1234560000G (Home)", String.mk (List.replicate 51 'A')⟩] rfl
    rw [h]
    decide
  · exact ((C8_migration_token_conversion
        [String.mk (List.replicate 51 'A')] false
        (.ok [⟨"99XXX1234560000G (Home)", String.mk (List.replicate 51 'A')⟩])).1
        (by decide)).1 rfl

theorem reauthenticateEnv_counters (st : ClientState) (env : Env) (k : Counters) :
    (reauthenticateEnv st env k).2.2.httpCount = k.httpCount ∧
    (reauthenticateEnv st env k).2.2.loginCount ≤ k.loginCount + 1 := by
  unfold reauthenticateEnv
  split
  · exact ⟨rfl, by dsimp; omega⟩
  · split
    · exact ⟨rfl, by dsimp; omega⟩
    · exact ⟨rfl, by dsimp; omega⟩

set_option maxHeartbeats 1000000 in
/-- C1: for every authenticated-request call made after a prior successful
authenticate, re-authentication is attempted at most once (at most one
login POST is consumed) and the original request is retried at most once
(at most two data requests are consumed); in particular, when the first
response signals expiry, re-authentication succeeds with the stored
non-empty credentials, and the retried request yields a non-200 status (a
second expiry signal or any other failure), the call fails with the
API-status error — no further re-authentication or retry happens. -/
theorem C1_single_reauth_single_retry (st : ClientState) (env : Env)
    (k : Counters) (hauth : st.authenticated = true) :
    ((makeAuthenticatedRequest st env k).2.2.httpCount ≤ k.httpCount + 2
      ∧ (makeAuthenticatedRequest st env k).2.2.loginCount ≤ k.loginCount + 1)
    ∧ (∀ r1 r2 tok u p,
        env.http k.httpCount = .resp r1 → r1.contentTypeHtml = true →
        st.username = some u → u ≠ "" →
        st.password = some p → p ≠ "" →
        env.login k.loginCount = .response 200 true tok →
        env.http (k.httpCount + 1) = .resp r2 → r2.status ≠ 200 →
        (makeAuthenticatedRequest st env k).1 = .apiErrorAfterReauth r2.status) := by
  constructor
  · unfold makeAuthenticatedRequest
    rw [hauth]
    simp only [Bool.not_true, Bool.false_eq_true, if_false]
    split
    · constructor <;> (dsimp; omega)
    · split
      · obtain ⟨hch, hcl⟩ := reauthenticateEnv_counters st env
          { httpCount := k.httpCount + 1, loginCount := k.loginCount }
        dsimp at hch hcl
        split
        · split
          · constructor <;> (dsimp; first | exact hcl | ((rw [hch]) <;> omega))
          · split
            · split
              · constructor <;> (dsimp; first | exact hcl | ((rw [hch]) <;> omega))
              · constructor <;> (dsimp; first | exact hcl | ((rw [hch]) <;> omega))
            · constructor <;> (dsimp; first | exact hcl | ((rw [hch]) <;> omega))
        · constructor <;> (dsimp; first | exact hcl | ((rw [hch]) <;> omega))
      · split
        · split <;> constructor <;> (dsimp; omega)
        · constructor <;> (dsimp; omega)
  · intro r1 r2 tok u p h1 hexp hu hune hp hpne hlogin h2 hst
    have hfu : optStrFalsy st.username = false := by
      rw [hu]; simp [optStrFalsy, hune]
    have hfp : optStrFalsy st.password = false := by
      rw [hp]; simp [optStrFalsy, hpne]
    have hre : reauthenticateEnv st env
        { httpCount := k.httpCount + 1, loginCount := k.loginCount } =
        (true,
          { authenticated := true, session_token := extractSessionToken tok,
            username := some u, password := some p },
          { httpCount := k.httpCount + 1, loginCount := k.loginCount + 1 }) := by
      unfold reauthenticateEnv
      rw [hfu, hfp]
      simp only [Bool.or_self, Bool.false_eq_true, if_false]
      simp only [hu, hp]
      rw [hlogin]
      simp [authenticate]
    unfold makeAuthenticatedRequest
    rw [hauth]
    simp only [Bool.not_true, Bool.false_eq_true, if_false]
    simp only [h1, isSessionExpired, hexp, if_true, hre]
    simp only [h2]
    simp [hst]

/-- Witness for C1: an authenticated client whose first response is HTML
(expired), whose re-authentication login succeeds, and whose retried
request returns HTTP 500: the call fails with the API-status error and
consumes exactly two data requests and one login. -/
theorem C1_witness :
    (makeAuthenticatedRequest
        { authenticated := true, session_token := some "t",
          username := some "user", password := some "pw" }
        { http := fun i => if i = 0 then .resp ⟨true, 200, none⟩
            else .resp ⟨true, 500, none⟩,
          login := fun _ => .response 200 true (some "tok") }
        { httpCount := 0, loginCount := 0 }).1 = .apiErrorAfterReauth 500 :=
  (C1_single_reauth_single_retry
      { authenticated := true, session_token := some "t",
        username := some "user", password := some "pw" }
      { http := fun i => if i = 0 then .resp ⟨true, 200, none⟩
          else .resp ⟨true, 500, none⟩,
        login := fun _ => .response 200 true (some "tok") }
      { httpCount := 0, loginCount := 0 } rfl).2
    ⟨true, 200, none⟩ ⟨true, 500, none⟩ (some "tok") "user" "pw"
    rfl rfl rfl (by decide) rfl (by decide) rfl rfl (by decide)

/-- C4 (code evaluation): the per-POD auth-error classification of
`_async_update_data` is unreachable for chart-fetch failures.  The
per-period `except` (coordinator.py line 172) catches every fetch error
first, so the per-POD cycle loop always completes with `.ok` — for every
input — and in particular a fetch error whose message is
"Not authenticated", which matches the fixed auth-signature substrings,
does not abort the cycle: the POD is kept with an empty aggregate instead
of the cycle failing with `ConfigEntryAuthFailed` as the claim states. -/
theorem C4_auth_fetch_error_does_not_abort_cycle :
    (∀ cfg registry periods fetch podIds, ∃ l,
        runPodLoop cfg registry periods fetch podIds = .ok l)
    ∧ isAuthErrorMsg "Not authenticated" = true
    ∧ runPodLoop ⟨false, false⟩ [("POD1", ⟨"99XXX1234560000G (Home)", "v1"⟩)]
        ["yesterday"] (fun _ _ => .error "Not authenticated") ["POD1"]
      = .ok [("POD1",
          { session_pod_id := "v1", pod_text := "99XXX1234560000G (Home)",
            aggregated := [], chartPeriods := [] })] := by
  refine ⟨?_, by decide, by rfl⟩
  intro cfg registry periods fetch podIds
  induction podIds with
  | nil => exact ⟨[], rfl⟩
  | cons a t ih =>
      obtain ⟨l, hl⟩ := ih
      cases hreg : registry.lookup a with
      | none => exact ⟨l, by simp [runPodLoop, hreg, hl]⟩
      | some pod =>
          exact ⟨(a, processPod cfg periods fetch a pod) :: l,
            by simp [runPodLoop, hreg, hl]⟩
